import Mathlib

/-
Verification of the chained hash table in `src/htable.c` (plus its header
`htable.h` and the older hash-map variant concatenated in the same file).

Shallow embedding conventions:
* C `void *` keys and values become type parameters `K` and `V`.
* The caller's hash function is `K → Nat` (C `unsigned long`) and the
  caller's comparison function is `K → K → Int` (C `int`).
* A bucket chain (a null-terminated singly linked list of `struct
  htable_node`) is a `List (htable_node K V)`; the null terminator is the
  empty list.  The separate `rawNode` model below keeps the `next` field
  explicit for the one fact that depends on it (the tail-append branch of
  `htable_insert` never writes `next`).
* `malloc`/`calloc` outcomes are threaded as explicit `Bool` flags
  (`true` = the allocation succeeds).  At most one node allocation happens
  per `htable_insert` call, so a single flag per call is exact.
* The key-free and value-free callbacks act only on memory outside the
  pure state; they are modelled by counting their invocations
  (`htable_destroy` returns the pair of counts).  The copy callbacks
  `kcpy`/`vcpy` are modelled functionally.
* C functions that may receive `NULL` for a pointer argument take an
  `Option`; a live table itself is represented directly (the `table ==
  NULL` guards concern only dead handles, outside the pure model).
-/

set_option autoImplicit false

namespace Htable

variable {K V : Type}

/-- `struct htable_node` of `htable.h`, as a link of a well-formed
(null-terminated) chain: the `next` field is the tail of the enclosing
`List`. -/
structure htable_node (K V : Type) where
  key : K
  value : V

/-- `struct callbacks` of `htable.h`: four optional hooks.  The free hooks
carry no functional content in the pure model (their invocations are
counted by `htable_destroy`), so only their presence is recorded. -/
structure Callbacks (K V : Type) where
  kcpy : Option (K → K)
  vcpy : Option (V → V)
  kfree : Option (K → Unit)
  vfree : Option (V → Unit)

/-- `htable_t` (`struct hash_map`) of `htable.h`: the bucket array, its
size, the element count, the injected hash and comparison functions, and
the resolved copy callbacks. -/
structure htable (K V : Type) where
  table : List (List (htable_node K V))
  size : Nat
  count : Nat
  hash : K → Nat
  keq : K → K → Int
  kcpy : K → K
  vcpy : V → V

/-- `htable_default_copy` of `htable.c`: returns its argument. -/
def htable_default_copy (src : K) : K :=
  src

/-- `get_hash` of `htable.c`: `table->hash(key) % table->size`. -/
def get_hash (t : htable K V) (key : K) : Nat :=
  t.hash key % t.size

/-- Resolution of the key-copy callback performed by `htable_create`:
default to `htable_default_copy`, overridden when `cbs` is provided and
its `kcpy` field is non-null. -/
def resolve_kcpy (cbs : Option (Callbacks K V)) : K → K :=
  match cbs with
  | none => htable_default_copy
  | some c =>
    match c.kcpy with
    | none => htable_default_copy
    | some f => f

/-- Resolution of the value-copy callback performed by `htable_create`
(same fallback scheme as `resolve_kcpy`). -/
def resolve_vcpy (cbs : Option (Callbacks K V)) : V → V :=
  match cbs with
  | none => htable_default_copy
  | some c =>
    match c.vcpy with
    | none => htable_default_copy
    | some f => f

/-- `htable_create` of `htable.c`.  Returns the table (or `none` for the
`NULL` result) together with the number of allocation attempts the call
performed (`calloc` for the table struct, then `calloc` for the bucket
array); the argument check `size == 0 || hash == NULL || keq == NULL`
returns before either allocation.  `alloc1`/`alloc2` are the outcomes of
the two `calloc` calls.  `calloc` zeroes the table struct, so `count`
starts at `0`; the bucket array is zeroed, so every bucket is the null
(empty) chain. -/
def htable_create (size : Nat) (hash? : Option (K → Nat))
    (keq? : Option (K → K → Int)) (cbs? : Option (Callbacks K V))
    (alloc1 alloc2 : Bool) : Option (htable K V) × Nat :=
  match hash?, keq? with
  | some hash, some keq =>
    if size = 0 then
      (none, 0)
    else if alloc1 then
      if alloc2 then
        (some { table := List.replicate size []
                size := size
                count := 0
                hash := hash
                keq := keq
                kcpy := resolve_kcpy cbs?
                vcpy := resolve_vcpy cbs? }, 2)
      else (none, 2)
    else (none, 1)
  | _, _ => (none, 0)

/-- The do-while body of `htable_destroy`, entered with `current` non-null:
frees every node of the remaining chain, one `kfree` and one `vfree` call
per node; returns the pair of invocation counts. -/
def destroyChainGo : List (htable_node K V) → Nat × Nat
  | [] => (0, 0)
  | _ :: rest => ((destroyChainGo rest).1 + 1, (destroyChainGo rest).2 + 1)

/-- One iteration of the bucket loop of `htable_destroy`.  The traversal is
a do-while whose body runs before any null test, so on an empty bucket the
very first `current->next` dereferences the null head: that fault is
`none`.  On a non-empty bucket the body frees each node exactly once. -/
def destroyChain : List (htable_node K V) → Option (Nat × Nat)
  | [] => none
  | n :: rest => some (destroyChainGo (n :: rest))

/-- `htable_destroy` of `htable.c`: walks every bucket with `destroyChain`,
then frees the bucket array and the table.  The result is the total number
of `kfree` and of `vfree` invocations, or `none` if some bucket walk
dereferenced null. -/
def htable_destroy (t : htable K V) : Option (Nat × Nat) :=
  t.table.foldl
    (fun acc chain =>
      match acc, destroyChain chain with
      | some a, some b => some (a.1 + b.1, a.2 + b.2)
      | _, _ => none)
    (some (0, 0))

/-- The chain-traversal loop of `htable_insert`, entered with a non-null
head (the `[]` case renders the fall-through append after the do-while
exhausts the chain).  A node matches when `table->keq(current->key, key)`
is truthy, i.e. nonzero; a match frees the old value and stores
`vcpy(value)` in place.  Appending allocates (`allocOk`), storing
`kcpy(key)` and `vcpy(value)`; `none` is the `-2` allocation-failure
return. -/
def insertChain (keq : K → K → Int) (kcpy : K → K) (vcpy : V → V)
    (allocOk : Bool) (key : K) (value : V) :
    List (htable_node K V) → Option (List (htable_node K V))
  | [] =>
    if allocOk then some [{ key := kcpy key, value := vcpy value }] else none
  | n :: rest =>
    if keq n.key key ≠ 0 then
      some ({ n with value := vcpy value } :: rest)
    else
      match insertChain keq kcpy vcpy allocOk key value rest with
      | none => none
      | some rest2 => some (n :: rest2)

/-- `htable_insert` of `htable.c`.  Returns the C status (`-1` invalid
argument, `-2` allocation failure, `0` success) and the table afterwards.
A `NULL` value is rejected first.  An empty bucket gets a freshly
allocated head node holding `kcpy(key)`/`vcpy(value)`; otherwise the chain
is scanned by `insertChain`. -/
def htable_insert (allocOk : Bool) (t : htable K V) (key : K)
    (value? : Option V) : Int × htable K V :=
  match value? with
  | none => (-1, t)
  | some value =>
    match t.table.getD (get_hash t key) [] with
    | [] =>
      if allocOk then
        (0, { t with
                table := t.table.set (get_hash t key)
                  [{ key := t.kcpy key, value := t.vcpy value }] })
      else (-2, t)
    | n :: rest =>
      match insertChain t.keq t.kcpy t.vcpy allocOk key value (n :: rest) with
      | none => (-2, t)
      | some chain2 =>
        (0, { t with table := t.table.set (get_hash t key) chain2 })

/-- The scan-and-unlink loop of `htable_remove`: the first node whose
`keq(current->key, key)` is truthy is unlinked (and its key, value and
node freed); `none` means the chain was exhausted without a match. -/
def removeChain (keq : K → K → Int) (key : K) :
    List (htable_node K V) → Option (List (htable_node K V))
  | [] => none
  | n :: rest =>
    if keq n.key key ≠ 0 then
      some rest
    else
      match removeChain keq key rest with
      | none => none
      | some rest2 => some (n :: rest2)

/-- `htable_remove` of `htable.c`: returns `0` and the updated table when a
node matched, `-1` and the untouched table otherwise. -/
def htable_remove (t : htable K V) (key : K) : Int × htable K V :=
  match removeChain t.keq key (t.table.getD (get_hash t key) []) with
  | none => (-1, t)
  | some chain2 => (0, { t with table := t.table.set (get_hash t key) chain2 })

/-- The lookup loop of `htable_get`: returns the value of the first node
whose `keq(current->key, key)` is truthy, `none` (the C `NULL`) when the
chain runs out. -/
def getChain (keq : K → K → Int) (key : K) :
    List (htable_node K V) → Option V
  | [] => none
  | n :: rest => if keq n.key key ≠ 0 then some n.value else getChain keq key rest

/-- `htable_get` of `htable.c`: pure lookup, the function performs no
writes to the table. -/
def htable_get (t : htable K V) (key : K) : Option V :=
  getChain t.keq key (t.table.getD (get_hash t key) [])

/-- The lookup loop of the second (hash-map) variant's `htable_get`: there
the match test is `!map->comp(current->key, key)`, i.e. a comparison
result of zero. -/
def hmap_getChain (comp : K → K → Int) (key : K) :
    List (htable_node K V) → Option V
  | [] => none
  | n :: rest => if comp n.key key = 0 then some n.value else hmap_getChain comp key rest

/-- A heap node with its successor field kept explicit: `none` is the C
null pointer, `some p` an arbitrary non-null pointer value `p`.  Used to
record exactly which fields each allocation branch of `htable_insert`
writes; `residue` below is whatever the freshly `malloc`ed memory happens
to contain. -/
structure rawNode (K V : Type) where
  key : K
  value : V
  next : Option Nat

/-- Empty-bucket branch of `htable_insert`: the fresh node's three fields
are all assigned (`new_node->key`, `new_node->value`, and
`new_node->next = NULL`). -/
def newNodeHeadBranch (kcpy : K → K) (vcpy : V → V) (key : K) (value : V)
    (residue : rawNode K V) : rawNode K V :=
  { residue with key := kcpy key, value := vcpy value, next := none }

/-- Tail-append branch of `htable_insert`: only `new_node->key` and
`new_node->value` are assigned before `prev->next = new_node`; the `next`
field keeps the allocation residue. -/
def newNodeTailBranch (kcpy : K → K) (vcpy : V → V) (key : K) (value : V)
    (residue : rawNode K V) : rawNode K V :=
  { residue with key := kcpy key, value := vcpy value }

/-- Empty-bucket branch of the second (hash-map) variant's insert: all
three fields assigned, `next = NULL`. -/
def hmapNewNodeHeadBranch (key : K) (value : V)
    (residue : rawNode K V) : rawNode K V :=
  { residue with key := key, value := value, next := none }

/-- Tail-append branch of the second (hash-map) variant's insert: again
only `key` and `value` are written, `next` keeps the residue. -/
def hmapNewNodeTailBranch (key : K) (value : V)
    (residue : rawNode K V) : rawNode K V :=
  { residue with key := key, value := value }

/-- One API call against a live table, for stating frame properties over
arbitrary operation sequences.  `htable_get` performs no writes, so it
leaves the state untouched. -/
inductive Op (K V : Type) where
  | insert (allocOk : Bool) (key : K) (value? : Option V)
  | remove (key : K)
  | get (key : K)

/-- Apply one operation to the table state. -/
def applyOp (t : htable K V) : Op K V → htable K V
  | .insert allocOk key value? => (htable_insert allocOk t key value?).2
  | .remove key => (htable_remove t key).2
  | .get _ => t

/-- Apply a sequence of operations, left to right. -/
def applyOps (ops : List (Op K V)) (t : htable K V) : htable K V :=
  ops.foldl applyOp t

/-- The comparison function of the repository's own unit tests
(`compare_int`): the difference of the two keys, so zero on equal keys and
nonzero on distinct keys. -/
def exKeq (a b : Nat) : Int :=
  (a : Int) - (b : Int)

/-- The table produced by `htable_create 1 (some fun k => k) (some exKeq)
none true true`: a single empty bucket, comparator-style key comparison. -/
def exT1 : htable Nat Nat where
  table := List.replicate 1 []
  size := 1
  count := 0
  hash := fun k => k
  keq := exKeq
  kcpy := htable_default_copy
  vcpy := htable_default_copy

/-- The table produced by `htable_create 2 (some fun k => k) (some exKeq)
none true true`: two empty buckets. -/
def exT2 : htable Nat Nat where
  table := List.replicate 2 []
  size := 2
  count := 0
  hash := fun k => k
  keq := exKeq
  kcpy := htable_default_copy
  vcpy := htable_default_copy

/-- `exT1` is exactly what `htable_create` returns for capacity 1 with the
identity hash, the test comparator, and no callback struct. -/
theorem exT1_is_created :
    (htable_create 1 (some fun k => k) (some exKeq) none true true).1
      = some exT1 := rfl

/-- `exT2` is exactly what `htable_create` returns for capacity 2. -/
theorem exT2_is_created :
    (htable_create 2 (some fun k => k) (some exKeq) none true true).1
      = some exT2 := rfl

/-- Claim C1.  The claim says insert/remove/get treat two keys as the same
exactly when the comparison function returns zero.  The first variant's
code tests `table->keq(current->key, key)` directly, so a NONZERO result
is treated as a match: with the repository's own comparator `exKeq`
(`compare_int` style, `keq 1 2 = -1 ≠ 0`, `keq 1 1 = 0`), inserting key 1
and then the distinct key 2 overwrites key 1's entry in place (one entry
`⟨1, 200⟩` instead of two), and `htable_get` misses the key that IS equal
to the stored one.  The second (hash-map) variant tests `!comp(...)` and
does follow the claimed convention, as the final conjunct shows. -/
theorem keq_nonzero_treated_as_equal :
    exKeq 1 2 ≠ 0 ∧ exKeq 1 1 = 0
      ∧ (htable_insert true (htable_insert true exT1 1 (some 100)).2
          2 (some 200)).2.table = [[{ key := 1, value := 200 }]]
      ∧ htable_get (htable_insert true exT1 1 (some 100)).2 1 = none
      ∧ hmap_getChain exKeq 1 [{ key := 1, value := 100 }] = some 100
      ∧ hmap_getChain exKeq 2 [{ key := 1, value := 100 }] = none :=
  ⟨by decide, by decide, rfl, rfl, rfl, rfl⟩

/-- Claim C2.  The claim says destroying a table with K entries invokes
each free hook exactly K times and skips empty buckets without
dereferencing them.  The do-while in `htable_destroy` runs its body before
testing `current`, so a freshly created capacity-1 table (one empty
bucket, K = 0) dereferences the null bucket head: the walk faults
(`none`) instead of invoking the hooks zero times.  (The repository's own
`test_htable_create` destroys an all-empty table of 1024 buckets.)  With
the single bucket non-empty the counts do come out right (last
conjunct). -/
theorem destroy_empty_bucket_faults :
    (htable_create 1 (some fun k => k) (some exKeq) none true true).1 = some exT1
      ∧ htable_destroy exT1 = none
      ∧ htable_destroy (htable_insert true exT1 1 (some 100)).2 = some (1, 1) :=
  ⟨rfl, rfl, rfl⟩

/-- Claim C3.  The claim says a tail-appended entry's successor link is
null.  The tail-append branch of `htable_insert` writes only the key and
value fields of the freshly allocated node (unlike the empty-bucket
branch, which also writes `next = NULL`), so the appended node's `next`
keeps whatever the allocation residue held — here `some 7`, a non-null
pointer value.  The second variant's tail-append branch has the same
omission. -/
theorem tail_append_leaves_next_unset :
    (newNodeTailBranch (fun x : Nat => x) (fun x : Nat => x) 1 100
        { key := 0, value := 0, next := some 7 }).next = some 7
      ∧ (newNodeHeadBranch (fun x : Nat => x) (fun x : Nat => x) 1 100
          { key := 0, value := 0, next := some 7 }).next = none
      ∧ (hmapNewNodeTailBranch (1 : Nat) (100 : Nat)
          { key := 0, value := 0, next := some 7 }).next = some 7
      ∧ (hmapNewNodeHeadBranch (1 : Nat) (100 : Nat)
          { key := 0, value := 0, next := some 7 }).next = none :=
  ⟨rfl, rfl, rfl, rfl⟩

/-- Claim C4.  The claim says a second insert of the same key leaves one
entry, makes `get` return the second value, and does not grow the chain.
With the comparator convention the repository's tests use (`exKeq 42 42 =
0`), the code's truthiness test never matches the existing equal entry:
the second insert succeeds but APPENDS a duplicate (chain length 2, two
entries with key 42) and `htable_get` finds neither value.  This is the
scenario of `test_htable_collision_int` (values 100 then 300). -/
theorem duplicate_insert_appends_again :
    (htable_insert true (htable_insert true exT1 42 (some 100)).2
        42 (some 300)).1 = 0
      ∧ ((htable_insert true (htable_insert true exT1 42 (some 100)).2
          42 (some 300)).2.table.getD 0 []).length = 2
      ∧ (htable_insert true (htable_insert true exT1 42 (some 100)).2
          42 (some 300)).2.table
        = [[{ key := 42, value := 100 }, { key := 42, value := 300 }]]
      ∧ htable_get (htable_insert true (htable_insert true exT1 42 (some 100)).2
          42 (some 300)).2 42 = none :=
  ⟨rfl, rfl, rfl, rfl⟩

/-- Claim C5.  The claim says `get(key)` immediately after a successful
`insert(key, value)` returns that value.  With the comparator-style
equality function the repository's own `test_htable_insert_int` uses
(`exKeq 42 42 = 0`), the insert succeeds (status 0) but `htable_get`
treats the zero comparison as a non-match and returns not-found instead
of 100. -/
theorem get_after_insert_misses :
    (htable_insert true exT1 42 (some 100)).1 = 0
      ∧ htable_get (htable_insert true exT1 42 (some 100)).2 42 = none :=
  ⟨rfl, rfl⟩

/-- Claim C6.  The claim says removing a key with no equal entry in its
bucket chain returns not-found and leaves the table untouched.  The chain
holds only key 1 and we remove key 2 — no equal entry, since `exKeq 1 2 =
-1 ≠ 0` — yet the code's truthiness test takes the nonzero comparison as
a match: `htable_remove` returns success (0), unlinks key 1's entry, and
the previously present key 1 is gone. -/
theorem remove_absent_key_mutates :
    exKeq 1 2 ≠ 0
      ∧ hmap_getChain exKeq 1
          ((htable_insert true exT1 1 (some 100)).2.table.getD 0 []) = some 100
      ∧ (htable_remove (htable_insert true exT1 1 (some 100)).2 2).1 = 0
      ∧ (htable_remove (htable_insert true exT1 1 (some 100)).2 2).2.table = [[]]
      ∧ hmap_getChain exKeq 1
          ((htable_remove (htable_insert true exT1 1 (some 100)).2 2).2.table.getD 0 [])
        = none :=
  ⟨by decide, rfl, rfl, rfl, rfl⟩

/-- Every slot of a zero-initialized (all-`[]`) bucket array reads back as
the empty chain. -/
theorem replicate_getD_nil (n i : Nat) :
    (List.replicate n ([] : List (htable_node K V))).getD i [] = [] := by
  induction n generalizing i with
  | zero => rfl
  | succ m ih =>
    cases i with
    | zero => rfl
    | succ j => exact ih j

/-- `htable_insert` never touches the `count` field. -/
theorem htable_insert_count (allocOk : Bool) (t : htable K V) (key : K)
    (value? : Option V) :
    (htable_insert allocOk t key value?).2.count = t.count := by
  unfold htable_insert
  split
  · rfl
  · split
    · split
      · rfl
      · rfl
    · split
      · rfl
      · rfl

/-- `htable_remove` never touches the `count` field. -/
theorem htable_remove_count (t : htable K V) (key : K) :
    (htable_remove t key).2.count = t.count := by
  unfold htable_remove
  split
  · rfl
  · rfl

/-- No single operation changes the `count` field. -/
theorem applyOp_count (t : htable K V) (op : Op K V) :
    (applyOp t op).count = t.count := by
  cases op with
  | insert allocOk key value? => exact htable_insert_count allocOk t key value?
  | remove key => exact htable_remove_count t key
  | get key => rfl

/-- No sequence of operations changes the `count` field. -/
theorem applyOps_count (ops : List (Op K V)) (t : htable K V) :
    (applyOps ops t).count = t.count := by
  induction ops generalizing t with
  | nil => rfl
  | cons op rest ih =>
    calc (applyOps (op :: rest) t).count
        = (applyOps rest (applyOp t op)).count := rfl
      _ = (applyOp t op).count := ih (applyOp t op)
      _ = t.count := applyOp_count t op

/-- A table returned by `htable_create` has `count = 0` (the struct comes
from `calloc`). -/
theorem htable_create_count (size : Nat) (hash : K → Nat) (keq : K → K → Int)
    (cbs? : Option (Callbacks K V)) (a1 a2 : Bool) (t : htable K V)
    (h : (htable_create size (some hash) (some keq) cbs? a1 a2).1 = some t) :
    t.count = 0 := by
  simp only [htable_create] at h
  split at h
  · simp at h
  · split at h
    · split at h
      · have h2 := (Option.some.inj h).symm
        subst h2
        rfl
      · simp at h
    · simp at h

/-- Claim C7.  Whenever `htable_insert` returns the allocation-error
status `-2` (a new entry could not be allocated), the table is returned
exactly as it was: no bucket head or chain link is modified and no
partial entry is reachable. -/
theorem insert_alloc_failure_leaves_table (allocOk : Bool) (t : htable K V)
    (key : K) (value? : Option V) :
    (htable_insert allocOk t key value?).1 = -2 →
      (htable_insert allocOk t key value?).2 = t := by
  unfold htable_insert
  split
  · intro h; simp at h
  · split
    · split
      · intro h; simp at h
      · intro _; rfl
    · split
      · intro _; rfl
      · intro h; simp at h

/-- Witness for claim C7: on the created capacity-1 table with the
allocator failing, inserting into the empty bucket returns `-2` and the
unchanged table. -/
theorem insert_alloc_failure_leaves_table_holds :
    (htable_insert false exT1 3 (some 5)).1 = -2
      ∧ (htable_insert false exT1 3 (some 5)).2 = exT1 :=
  ⟨rfl, insert_alloc_failure_leaves_table false exT1 3 (some 5) rfl⟩

/-- Claim C8.  A successful `htable_create` with capacity `C ≥ 1` and
non-null hash and comparison functions yields a table with exactly `C`
buckets, every bucket empty, and `htable_get` returning not-found for
every key before any insert. -/
theorem create_yields_empty_table (C : Nat) (hC : 1 ≤ C) (hash : K → Nat)
    (keq : K → K → Int) (cbs? : Option (Callbacks K V)) (a1 a2 : Bool)
    (t : htable K V)
    (h : (htable_create C (some hash) (some keq) cbs? a1 a2).1 = some t) :
    t.table.length = C ∧ (∀ i, t.table.getD i [] = [])
      ∧ (∀ key, htable_get t key = none) := by
  simp only [htable_create] at h
  split at h
  · simp at h
  · split at h
    · split at h
      · have h2 := (Option.some.inj h).symm
        subst h2
        refine ⟨by simp, fun i => replicate_getD_nil C i, fun key => ?_⟩
        unfold htable_get
        rw [replicate_getD_nil]
        rfl
      · simp at h
    · simp at h

/-- Witness for claim C8: the concrete capacity-2 creation. -/
theorem create_yields_empty_table_holds :
    exT2.table.length = 2 ∧ exT2.table.getD 1 [] = []
      ∧ htable_get exT2 5 = none := by
  have h := create_yields_empty_table 2 (by decide) (fun k : Nat => k) exKeq
    none true true exT2 rfl
  exact ⟨h.1, h.2.1 1, h.2.2 5⟩

/-- Claim C9.  Whenever the requested capacity is zero or the hash or
comparison function is null, `htable_create` returns `NULL` with ZERO
allocation attempts performed — the argument check precedes both
`calloc` calls, and the result does not depend on the allocator outcomes
`a1`, `a2`. -/
theorem create_invalid_args_checked_first (size : Nat)
    (hash? : Option (K → Nat)) (keq? : Option (K → K → Int))
    (cbs? : Option (Callbacks K V)) (a1 a2 : Bool)
    (h : size = 0 ∨ hash? = none ∨ keq? = none) :
    htable_create size hash? keq? cbs? a1 a2 = (none, 0) := by
  rcases h with h | h | h
  · subst h
    cases hash? with
    | none => rfl
    | some hash =>
      cases keq? with
      | none => rfl
      | some keq => rfl
  · subst h
    rfl
  · subst h
    cases hash? with
    | none => rfl
    | some hash => rfl

/-- Witness for claim C9: zero capacity with valid functions produces
`(NULL, 0 allocations)`. -/
theorem create_invalid_args_checked_first_holds :
    htable_create 0 (some fun k : Nat => k) (some exKeq)
        (none : Option (Callbacks Nat Nat)) true true = (none, 0) :=
  create_invalid_args_checked_first 0 (some fun k => k) (some exKeq) none
    true true (Or.inl rfl)

/-- Claim C10.  The `count` field of `htable_t` is zero on creation (the
struct is `calloc`ed and no code assigns it) and no operation —
`htable_insert`, `htable_remove`, or `htable_get` — ever updates it, so
after any sequence of operations on a created table it still holds
zero. -/
theorem count_field_stays_zero (size : Nat) (hash : K → Nat)
    (keq : K → K → Int) (cbs? : Option (Callbacks K V)) (a1 a2 : Bool)
    (t : htable K V) (ops : List (Op K V))
    (h : (htable_create size (some hash) (some keq) cbs? a1 a2).1 = some t) :
    (applyOps ops t).count = 0 := by
  rw [applyOps_count ops t]
  exact htable_create_count size hash keq cbs? a1 a2 t h

/-- Witness for claim C10: insert, remove and get on the created
capacity-1 table leave `count` at zero even though an entry was stored. -/
theorem count_field_stays_zero_holds :
    (applyOps [Op.insert true 1 (some 5), Op.get 1, Op.remove 1] exT1).count = 0 :=
  count_field_stays_zero 1 (fun k => k) exKeq none true true exT1
    [Op.insert true 1 (some 5), Op.get 1, Op.remove 1] rfl

end Htable
